import Mathlib

/-
Verification of the smart-agent conversational backend's orchestration core.

Every definition below is a shallow embedding of a Python function from the
repository (the embedded file and line ranges are cited in the doc comments).
The theorems check the natural-language specification's claims against these
embeddings.
-/

namespace SmartAgent

/-- A Python value passed as the `update` argument of the reducer: `None`,
a list, or a value of any other type.  Mirrors the dynamic `update: Any`
parameter of `clearable_list_reducer_v2` (src/backend/src/core/graph.py,
lines 40-61). -/
inductive PyUpdate (α : Type) : Type where
  | pynone : PyUpdate α
  | pylist (xs : List α) : PyUpdate α
  | otherVal : PyUpdate α
deriving DecidableEq

/-- Shallow embedding of `clearable_list_reducer_v2(current, update)`
(src/backend/src/core/graph.py lines 40-61):
- `update is None` → return `[]` (clear signal);
- `current is None` → `[] if update == [] else (update if isinstance(update, list) else [])`;
- `update` a list: empty → keep `current`, non-empty → `current + update`;
- any other update type → keep `current`. -/
def clearable_list_reducer_v2 {α : Type} (current : Option (List α)) (update : PyUpdate α) :
    List α :=
  match update, current with
  | .pynone, _ => []
  | .pylist [], none => []
  | .pylist xs, none => xs
  | .pylist [], some cur => cur
  | .pylist xs, some cur => cur ++ xs
  | .otherVal, none => []
  | .otherVal, some cur => cur

/-- C2: for every current list `S`, the clearable-append reducer used for
`sql_results`, `vec_results`, `kg_results` and `merged` maps an update of
`None` to the empty list (clear), an update of `[]` to `S` unchanged (no-op),
and an update of a non-empty list `X` to `S ++ X` (append); in particular a
worker returning an empty list never clears previously accumulated
evidence. -/
theorem clearable_reducer_clear_noop_append {α : Type} (S X : List α) :
    clearable_list_reducer_v2 (some S) (PyUpdate.pynone : PyUpdate α) = [] ∧
    clearable_list_reducer_v2 (some S) (PyUpdate.pylist []) = S ∧
    (X ≠ [] → clearable_list_reducer_v2 (some S) (PyUpdate.pylist X) = S ++ X) := by
  refine ⟨rfl, rfl, ?_⟩
  intro hX
  cases X with
  | nil => exact absurd rfl hX
  | cons a xs => rfl

/-- Witness for C2 at `S = [1]`, `X = [2]`. -/
theorem clearable_reducer_clear_noop_append_witness :
    clearable_list_reducer_v2 (some [1]) (PyUpdate.pylist [2]) = [1] ++ [2] :=
  (clearable_reducer_clear_noop_append [1] [2]).2.2 (by decide)

/-- A JSON-like value, used for the free-form `args` objects carried by plan
steps and for the checkpointer adapter's JSON-safe form. -/
inductive JVal : Type where
  | null : JVal
  | bool (b : Bool) : JVal
  | int (n : Int) : JVal
  | str (s : String) : JVal
  | arr (items : List JVal) : JVal
  | obj (entries : List (String × JVal)) : JVal

/-- The `call` field of a plan step; `_StepModel.call` is
`Literal["sql", "vec", "kg"]` (src/backend/src/core/graph.py line 471). -/
inductive CallType : Type where
  | sql : CallType
  | vec : CallType
  | kg : CallType
deriving DecidableEq

/-- The step model `_StepModel` (graph.py lines 470-473): `call`, dynamic `args`, and an
optional `when` flag (absent or `null` both count as not-`False`). -/
structure Step where
  call : CallType
  args : JVal
  when : Option Bool

/-- The stage model `_StageModel` (graph.py lines 475-477). -/
structure Stage where
  parallel : Bool
  steps : List Step

/-- The plan model `_PlanModel` (graph.py lines 479-481). -/
structure Plan where
  stages : List Stage
  fast_path : Bool

/-- The `when` filter applied to a stage's steps:
`[s for s in raw_steps if (s.get("when", True) is not False)]`
(graph.py lines 689, 1034, 1099). -/
def execSteps (raw : List Step) : List Step :=
  raw.filter (fun s => s.when ≠ some false)

/-- The planner's executability check (graph.py lines 680-695): at least one
stage, and the first stage keeps at least one step after the `when` filter. -/
def validPlan (p : Plan) : Bool :=
  match p.stages with
  | [] => false
  | first :: _ => !(execSteps first.steps).isEmpty

/-- Business-data lexicon for the planner fallback (graph.py line 712). -/
def sql_keywords : List String :=
  ["订单", "销售", "购买", "金额", "价格", "支付", "用户", "统计", "分析", "查询", "数据库"]

/-- Document lexicon (graph.py line 713); defined in the source but never
consulted by the routing, which defaults to `vec`. -/
def vec_keywords : List String :=
  ["文档", "搜索", "查找", "知识", "资料", "内容", "检索"]

/-- Knowledge-graph lexicon for the planner fallback (graph.py line 714). -/
def kg_keywords : List String :=
  ["关系", "图谱", "实体", "知识图谱"]

/-- Python's `kw in user_text` substring test. -/
def containsKw (text kw : String) : Bool :=
  decide (kw.data <:+: text.data)

/-- The keyword routing of the planner fallback (graph.py lines 719-737):
business-data lexicon → `sql`, else knowledge-graph lexicon → `kg`,
else `vec`. -/
def fallbackCall (user_text : String) : CallType :=
  if sql_keywords.any (fun kw => containsKw user_text kw) then CallType.sql
  else if kg_keywords.any (fun kw => containsKw user_text kw) then CallType.kg
  else CallType.vec

/-- The safe default SQL query of the fallback plan (graph.py lines 722-727). -/
def sqlFallbackArgs : JVal :=
  JVal.obj [("table", JVal.str "order"),
            ("fields", JVal.arr [JVal.str "*"]),
            ("order_by", JVal.arr [JVal.obj [("field", JVal.str "create_time"),
                                             ("direction", JVal.str "DESC")]]),
            ("limit", JVal.int 10)]

/-- The args of the routed fallback step (graph.py lines 719-737). -/
def fallbackArgs (user_text : String) : JVal :=
  match fallbackCall user_text with
  | CallType.sql => sqlFallbackArgs
  | CallType.kg => JVal.obj [("type", JVal.str "graph.search"),
                             ("args", JVal.obj [("query", JVal.str user_text),
                                                ("limit", JVal.int 5)])]
  | CallType.vec => JVal.obj [("query", JVal.str user_text), ("limit", JVal.int 5)]

/-- The deterministic fallback plan (graph.py lines 739-744): a single
sequential stage with one routed step (no `when` key on the step dict). -/
def fallbackPlan (user_text : String) : Plan :=
  ⟨[⟨false, [⟨fallbackCall user_text, fallbackArgs user_text, none⟩]⟩], false⟩

/-- Outcome of the provider-strict structured-output attempt inside
`plan_node` (graph.py lines 674-679): either a parsed `_PlanModel` dump or
any exception (LLM failure, JSON parse failure). -/
inductive PlannerOutcome : Type where
  | success (p : Plan) : PlannerOutcome
  | failure : PlannerOutcome

/-- Shallow embedding of `plan_node` (graph.py lines 466-754): a parsed plan
that passes the executability check is returned as-is; a failed check raises
`empty_plan` / `no_executable_steps`, and every exception lands in the outer
handler, which returns the keyword-routed fallback plan. -/
def plan_node (outcome : PlannerOutcome) (user_text : String) : Plan :=
  match outcome with
  | PlannerOutcome.success p => if validPlan p then p else fallbackPlan user_text
  | PlannerOutcome.failure => fallbackPlan user_text

/-- C5: every plan stored in state either passes the executability check
(≥ 1 stage, first stage keeps ≥ 1 step after dropping `when=false` steps) —
which is the plan emitted by the LLM when that plan is valid — or it is the
deterministic keyword-routed fallback plan (sql with the safe default query
on table "order" for business-data keywords, else kg `graph.search` for
knowledge-graph keywords, else vec). -/
theorem plan_node_valid_or_fallback (o : PlannerOutcome) (t : String) :
    validPlan (plan_node o t) = true ∧
    ((∃ p, o = PlannerOutcome.success p ∧ validPlan p = true ∧ plan_node o t = p) ∨
      plan_node o t = fallbackPlan t) ∧
    fallbackCall t = (if sql_keywords.any (fun kw => containsKw t kw) then CallType.sql
      else if kg_keywords.any (fun kw => containsKw t kw) then CallType.kg
      else CallType.vec) := by
  have hfb : validPlan (fallbackPlan t) = true := rfl
  refine ⟨?_, ?_, rfl⟩
  · cases o with
    | success p =>
      by_cases h : validPlan p = true
      · simp [plan_node, h]
      · simp [plan_node, h, hfb]
    | failure => exact hfb
  · cases o with
    | success p =>
      by_cases h : validPlan p = true
      · exact Or.inl ⟨p, rfl, h, by simp [plan_node, h]⟩
      · simp only [Bool.not_eq_true] at h
        exact Or.inr (by simp [plan_node, h])
    | failure => exact Or.inr rfl

/-- A LangGraph `Send(node, partial_state)` emitted by the Orchestrator's
conditional edge; we record the target node name and the step's `args`
payload (which the source puts under `sql_in` / `vec_in` / `kg_in` together
with `waiting: 0` and the shared `messages`). -/
structure SendMsg where
  node : String
  payload_in : JVal

/-- The worker node targeted by a step's `call`
(graph.py lines 1042-1068). -/
def workerNode : CallType → String
  | CallType.sql => "SQL_Subgraph"
  | CallType.vec => "Vector_Subgraph"
  | CallType.kg => "KG_Subgraph"

/-- The iterable of the dispatch loop in `assign_workers_by_plan`
(graph.py line 1039): all `when`-filtered steps when `parallel`, else only
the first one; empty when `stage_index` is out of range or no step
survives the filter (lines 1030-1036). -/
def dispatchedSteps (plan : Plan) (stage_index : Nat) : List Step :=
  match plan.stages[stage_index]? with
  | none => []
  | some stage =>
    match execSteps stage.steps with
    | [] => []
    | s0 :: rest => if stage.parallel then s0 :: rest else [s0]

/-- Shallow embedding of `assign_workers_by_plan` (graph.py lines 1025-1082):
one `Send` per dispatched step, each targeting the worker named by the
step's `call`. -/
def assign_workers_by_plan (plan : Plan) (stage_index : Nat) : List SendMsg :=
  match plan.stages[stage_index]? with
  | none => []
  | some stage =>
    match execSteps stage.steps with
    | [] => []
    | s0 :: rest =>
      (if stage.parallel then s0 :: rest else [s0]).map
        (fun s => ⟨workerNode s.call, s.args⟩)

/-- Shallow embedding of `set_barrier` (graph.py lines 1090-1134): `waiting`
is 0 when the stage is out of range or has no executable step, else
`len(steps)` when `parallel` and 1 otherwise. -/
def set_barrier (plan : Plan) (stage_index : Nat) : Int :=
  match plan.stages[stage_index]? with
  | none => 0
  | some stage =>
    match execSteps stage.steps with
    | [] => 0
    | s0 :: rest => if stage.parallel then ((s0 :: rest).length : Int) else 1

/-- C6: for every plan and stage index, `set_barrier` sets `waiting` to
exactly the number of `Send`s that `assign_workers_by_plan` dispatches over
the `when`-filtered steps (all steps when `parallel=true`, exactly the first
step otherwise), each `Send` targets the worker named by the step's `call`,
and the barrier increment plus the dispatched workers' `waiting: -1`
decrements sums to zero for the stage. -/
theorem barrier_matches_dispatch (plan : Plan) (i : Nat) :
    set_barrier plan i = ((assign_workers_by_plan plan i).length : Int) ∧
    (assign_workers_by_plan plan i).map SendMsg.node
      = (dispatchedSteps plan i).map (fun s => workerNode s.call) ∧
    set_barrier plan i + ((assign_workers_by_plan plan i).length : Int) * (-1) = 0 := by
  have hmap : assign_workers_by_plan plan i
      = (dispatchedSteps plan i).map (fun s => ⟨workerNode s.call, s.args⟩) := by
    unfold assign_workers_by_plan dispatchedSteps
    cases plan.stages[i]? with
    | none => rfl
    | some stage =>
      cases hs : execSteps stage.steps with
      | nil => simp [hs]
      | cons s0 rest =>
        by_cases hp : stage.parallel
        · simp [hs, hp]
        · simp [hs, hp]
  have hlen : set_barrier plan i = ((assign_workers_by_plan plan i).length : Int) := by
    rw [hmap]
    unfold set_barrier dispatchedSteps
    cases plan.stages[i]? with
    | none => rfl
    | some stage =>
      cases hs : execSteps stage.steps with
      | nil => simp [hs]
      | cons s0 rest =>
        by_cases hp : stage.parallel
        · simp [hs, hp]
        · simp [hs, hp]
  refine ⟨hlen, ?_, ?_⟩
  · rw [hmap, List.map_map]
    rfl
  · rw [hlen]
    omega

/-- The keys of the aggregator's `present` computation
(graph.py line 1385): state fields, in the order `sql_results`,
`kg_results`, `vec_results`, whose value is truthy (a non-empty list). -/
def aggPresent {α : Type} (sql_results vec_results kg_results : List α) : List String :=
  (if sql_results.isEmpty then [] else ["sql_results"]) ++
  (if kg_results.isEmpty then [] else ["kg_results"]) ++
  (if vec_results.isEmpty then [] else ["vec_results"])

/-- The aggregator's fast-path flag (graph.py lines 1384-1387):
`present` non-empty, every present key among `sql_results`/`kg_results`,
and `merged` non-empty. -/
def aggDeterministic {α : Type} (sql_results vec_results kg_results merged : List α) : Bool :=
  let present := aggPresent sql_results vec_results kg_results
  !present.isEmpty &&
    present.all (fun k => k == "sql_results" || k == "kg_results") &&
    !merged.isEmpty

/-- The `agg_route` values (graph.py line 1393). -/
inductive AggRoute : Type where
  | more : AggRoute
  | fast : AggRoute
  | done : AggRoute
deriving DecidableEq

/-- The partial state returned by the aggregator: `merged`, `agg_route`, and
`stage_index` only when advancing (graph.py lines 1400-1405). -/
structure AggResult (α : Type) where
  merged : List α
  agg_route : AggRoute
  stage_index : Option Nat

/-- Shallow embedding of `aggregate_normalize_optional`
(graph.py lines 1344-1405): `merged` is the concatenation of
`sql_results`, `vec_results`, `kg_results`; the route is
`"more" if stage_index + 1 < len(stages) else ("fast" if deterministic
else "done")`, advancing `stage_index` exactly when the route is
`"more"`. -/
def aggregate_normalize_optional {α : Type} (sql_results vec_results kg_results : List α)
    (stage_index : Nat) (plan : Plan) : AggResult α :=
  let merged := sql_results ++ vec_results ++ kg_results
  let deterministic := aggDeterministic sql_results vec_results kg_results merged
  let total := plan.stages.length
  if stage_index + 1 < total then
    ⟨merged, AggRoute.more, some (stage_index + 1)⟩
  else
    ⟨merged, if deterministic then AggRoute.fast else AggRoute.done, none⟩

/-- The conditional edge out of the aggregator (`_route_from_agg` plus the
edge map, graph.py lines 1774-1787): `more → Orchestrator`,
`fast → response_writer`, `done → response_writer`. -/
def route_from_agg : AggRoute → String
  | AggRoute.more => "Orchestrator"
  | AggRoute.fast => "response_writer"
  | AggRoute.done => "response_writer"

/-- C1 (amended): the Aggregator merges `sql_results ++ vec_results ++
kg_results`; whenever `stage_index + 1 < len(plan.stages)` it sets
`agg_route="more"` and advances `stage_index`, even when the fast-path
condition (present sources ⊆ {sql, kg} and merged non-empty) holds; only
when no stage remains does it set `agg_route="fast"` if that condition
holds (proceeding to the Writer) and `agg_route="done"` otherwise. -/
theorem aggregate_route_characterization {α : Type}
    (sql_results vec_results kg_results : List α) (stage_index : Nat) (plan : Plan) :
    (aggregate_normalize_optional sql_results vec_results kg_results stage_index plan).merged
      = sql_results ++ vec_results ++ kg_results ∧
    (stage_index + 1 < plan.stages.length →
      (aggregate_normalize_optional sql_results vec_results kg_results stage_index plan).agg_route
          = AggRoute.more ∧
      (aggregate_normalize_optional sql_results vec_results kg_results stage_index plan).stage_index
          = some (stage_index + 1)) ∧
    (¬ stage_index + 1 < plan.stages.length →
      (aggregate_normalize_optional sql_results vec_results kg_results stage_index plan).stage_index
          = none ∧
      (aggregate_normalize_optional sql_results vec_results kg_results stage_index plan).agg_route
        = (if aggDeterministic sql_results vec_results kg_results
              (sql_results ++ vec_results ++ kg_results)
           then AggRoute.fast else AggRoute.done)) := by
  by_cases h : stage_index + 1 < plan.stages.length
  · exact ⟨by simp [aggregate_normalize_optional, h],
      fun _ => ⟨by simp [aggregate_normalize_optional, h],
        by simp [aggregate_normalize_optional, h]⟩,
      fun hc => absurd h hc⟩
  · exact ⟨by simp [aggregate_normalize_optional, h],
      fun hc => absurd hc h,
      fun _ => ⟨by simp [aggregate_normalize_optional, h],
        by simp [aggregate_normalize_optional, h]⟩⟩

/-- Witness for C1 (amended) at a one-stage plan with sql-only results:
no stage remains and the fast-path condition holds, so the route is
`"fast"`. -/
theorem aggregate_route_characterization_witness :
    ¬ (0 + 1 < (⟨[⟨false, [⟨CallType.sql, JVal.null, none⟩]⟩], false⟩ : Plan).stages.length) ∧
    (aggregate_normalize_optional ([0] : List Nat) [] [] 0
        ⟨[⟨false, [⟨CallType.sql, JVal.null, none⟩]⟩], false⟩).agg_route = AggRoute.fast := by
  refine ⟨by decide, ?_⟩
  have h := (aggregate_route_characterization ([0] : List Nat) [] [] 0
      ⟨[⟨false, [⟨CallType.sql, JVal.null, none⟩]⟩], false⟩).2.2 (by decide)
  rw [h.2]
  rfl

/-- C1 counterexample: with `sql_results = [0]` and empty `vec`/`kg`
results the claim's fast-path condition holds (present ⊆ {sql, kg},
merged non-empty), yet on a two-stage plan at `stage_index = 0` the code
routes `"more"` back to the Orchestrator — not `"fast"` to the Writer —
because the `more` test precedes the `deterministic` test
(graph.py line 1393). -/
theorem aggregate_fast_path_not_taken_counterexample :
    aggDeterministic ([0] : List Nat) [] [] ([0] ++ [] ++ []) = true ∧
    (aggregate_normalize_optional ([0] : List Nat) [] [] 0
        ⟨[⟨false, [⟨CallType.sql, JVal.null, none⟩]⟩,
          ⟨false, [⟨CallType.vec, JVal.null, none⟩]⟩], false⟩).agg_route = AggRoute.more ∧
    (aggregate_normalize_optional ([0] : List Nat) [] [] 0
        ⟨[⟨false, [⟨CallType.sql, JVal.null, none⟩]⟩,
          ⟨false, [⟨CallType.vec, JVal.null, none⟩]⟩], false⟩).agg_route ≠ AggRoute.fast ∧
    route_from_agg (aggregate_normalize_optional ([0] : List Nat) [] [] 0
        ⟨[⟨false, [⟨CallType.sql, JVal.null, none⟩]⟩,
          ⟨false, [⟨CallType.vec, JVal.null, none⟩]⟩], false⟩).agg_route = "Orchestrator" := by
  exact ⟨rfl, rfl, by decide, rfl⟩

/-- Outcome of awaiting a retrieval tool (`await tool.ainvoke(...)` followed
by extracting `res.get("data")`): the extracted list on success, or a raised
exception that the worker's top-level `except` catches. -/
inductive ToolOutcome (α : Type) : Type where
  | ok (data : List α) : ToolOutcome α
  | raises : ToolOutcome α

/-- The shape of the `sql_in` parameters, as discriminated by `SQL_Subgraph`
(graph.py lines 1154-1188). -/
inductive SqlParams : Type where
  | notDict : SqlParams
  | tableFields : SqlParams
  | queryDraftDict : SqlParams
  | queryDraftStr : SqlParams
  | otherDict : SqlParams

/-- The partial state returned by a worker node: the evidence field it owns
(`none` when the key is absent from the returned dict) and the `waiting`
contribution (`none` when the key is absent). -/
structure WorkerReturn (α : Type) where
  results : Option (List α)
  waiting : Option Int

/-- Shallow embedding of `SQL_Subgraph` (graph.py lines 1137-1226).  The
early-error returns (non-dict params line 1156, string `query_draft` line
1174, tool missing from the registry line 1193) carry `waiting: -1`, as does
the success return (line 1218); the final `except` handler (lines 1222-1226)
returns `{"sql_results": []}` with no `waiting` key at all. -/
def SQL_Subgraph {α : Type} (params : SqlParams) (tool : ToolOutcome α) : WorkerReturn α :=
  match params with
  | SqlParams.notDict => ⟨some [], some (-1)⟩
  | SqlParams.queryDraftStr => ⟨some [], some (-1)⟩
  | _ =>
    match tool with
    | ToolOutcome.ok data => ⟨some data, some (-1)⟩
    | ToolOutcome.raises => ⟨some [], none⟩

/-- The `call_type` values dispatched by `KG_Subgraph`
(graph.py lines 1239-1338). -/
inductive KgCallType : Type where
  | search : KgCallType
  | writeEpisode : KgCallType
  | writeEntity : KgCallType
  | writeEdge : KgCallType
  | ingestDetect : KgCallType
  | ingestCommit : KgCallType
  | unknown : KgCallType

/-- Shallow embedding of `KG_Subgraph` (graph.py lines 1229-1341):
non-dict params and unknown call types return empty results with
`waiting: -1` (lines 1238, 1338); `graph.search` returns the tool's data
list, the write / ingest calls wrap the tool result into a single status
item (`writeItem`), each with `waiting: -1`; the final `except` handler
(lines 1339-1341) returns `{"kg_results": []}` with no `waiting` key. -/
def KG_Subgraph {α : Type} (params_is_dict : Bool) (call_type : KgCallType)
    (tool : ToolOutcome α) (writeItem : α) : WorkerReturn α :=
  if params_is_dict = false then ⟨some [], some (-1)⟩
  else
    match call_type, tool with
    | KgCallType.search, ToolOutcome.ok data => ⟨some data, some (-1)⟩
    | KgCallType.unknown, _ => ⟨some [], some (-1)⟩
    | _, ToolOutcome.ok _ => ⟨some [writeItem], some (-1)⟩
    | _, ToolOutcome.raises => ⟨some [], none⟩

/-- C3: evaluation at the failing input.  When the SQL or KG tool call
raises, the worker's returned partial state is `{results: [], waiting:
absent}` — the `waiting: -1` decrement required to release the fan-in
barrier is missing (graph.py lines 1222-1226 and 1339-1341), contradicting
the claim that the partial state still contains `waiting: -1`. -/
theorem worker_exception_drops_waiting :
    (SQL_Subgraph SqlParams.tableFields (ToolOutcome.raises : ToolOutcome Nat)).results
      = some [] ∧
    (SQL_Subgraph SqlParams.tableFields (ToolOutcome.raises : ToolOutcome Nat)).waiting
      = none ∧
    (SQL_Subgraph SqlParams.tableFields (ToolOutcome.raises : ToolOutcome Nat)).waiting
      ≠ some (-1) ∧
    (KG_Subgraph true KgCallType.search (ToolOutcome.raises : ToolOutcome Nat) 0).results
      = some [] ∧
    (KG_Subgraph true KgCallType.search (ToolOutcome.raises : ToolOutcome Nat) 0).waiting
      = none ∧
    (KG_Subgraph true KgCallType.search (ToolOutcome.raises : ToolOutcome Nat) 0).waiting
      ≠ some (-1) := by
  exact ⟨rfl, rfl, by decide, rfl, rfl, by decide⟩

/-- The shape of one merged evidence item, as classified by the Writer's
preview loop (graph.py lines 1447-1496). -/
inductive EvItem : Type where
  | withText : EvItem
  | sqlRow : EvItem
  | unknownDict : EvItem
  | nonDict : EvItem

/-- The cap `display_limit = len(merged) if len(merged) <= 20 else 20`
(graph.py line 1444) — computed before the data type is known and applied
to every merge. -/
def display_limit (n : Nat) : Nat := if n ≤ 20 then n else 20

/-- Whether an item contributes a `[i] …` preview line (graph.py lines
1450-1496): dicts carrying a non-empty text field, SQL-shaped dicts and
non-dict items do; a dict of unknown shape is recorded in
`preview_errors` instead. -/
def emitsLine : EvItem → Bool
  | EvItem.withText => true
  | EvItem.sqlRow => true
  | EvItem.unknownDict => false
  | EvItem.nonDict => true

/-- The number of enumerated evidence lines the Writer builds: the loop
runs over `merged[:display_limit]` (graph.py line 1447). -/
def preview_line_count (merged : List EvItem) : Nat :=
  ((merged.take (display_limit merged.length)).filter emitsLine).length

/-- C8: evaluation at the failing input.  For a SQL-only merge of 21 rows
the Writer enumerates only `min(21, 20) = 20` lines — the cap is applied
regardless of the data type (graph.py line 1444), although the comment
directly above it (lines 1441-1443) says SQL results display in full; the
same cap applies to a vector-heavy merge of 21 items. -/
theorem response_writer_truncates_sql_only_merge :
    preview_line_count (List.replicate 21 EvItem.sqlRow) = 20 ∧
    (List.replicate 21 EvItem.sqlRow).length = 21 ∧
    preview_line_count (List.replicate 21 EvItem.withText) = 20 := by
  exact ⟨rfl, rfl, rfl⟩

/-- A row of `threads(id, user_id, created_at, updated_at)`; `user_id` is a
nullable column (threads_pg.py). -/
structure ThreadRow where
  id : String
  user_id : Option String

/-- A row of `thread_messages(id, thread_id, user_id, role, content,
created_at)`; fields not used by the embedded queries are dropped. -/
structure MessageRow where
  id : Nat
  thread_id : String
  role : String
  content : String
deriving DecidableEq

/-- The relational store backing threads_pg.py. -/
structure ThreadStore where
  threads : List ThreadRow
  messages : List MessageRow

/-- SQL equality `t.user_id = $2`: a NULL on either side compares false. -/
def sqlEq (a b : Option String) : Bool :=
  match a, b with
  | some x, some y => x == y
  | _, _ => false

/-- Shallow embedding of `load_messages(thread_id, user_id)`
(threads_pg.py lines 129-145): rows of `thread_messages` joined against the
owning `threads` row (`t.id = tm.thread_id and tm.thread_id = $1 and
t.user_id = $2`); the `order by created_at, id` is omitted.  The function
body is a single fetch returning the (possibly empty) row list — it has no
code path producing `None`. -/
def load_messages (db : ThreadStore) (thread_id : String) (user_id : Option String) :
    List MessageRow :=
  db.messages.filter (fun m =>
    m.thread_id == thread_id &&
      db.threads.any (fun t => t.id == m.thread_id && sqlEq t.user_id user_id))

/-- The Python value the endpoint receives from the store, with its
optionality kept explicit because `get_thread_messages` tests
`rows is None` (server.py line 757). -/
inductive PyRows : Type where
  | pynone : PyRows
  | rows (msgs : List MessageRow) : PyRows
deriving DecidableEq

/-- The result of `load_messages` as a Python value: always a row list, never `None`. -/
def load_messages_py (db : ThreadStore) (thread_id : String) (user_id : Option String) :
    PyRows :=
  PyRows.rows (load_messages db thread_id user_id)

/-- Responses of `GET /api/threads/{id}/messages`. -/
inductive HttpMessagesResponse : Type where
  | ok (msgs : List MessageRow) : HttpMessagesResponse
  | notFound : HttpMessagesResponse
deriving DecidableEq

/-- Shallow embedding of `get_thread_messages` (server.py lines 751-767):
404 exactly when the store returned `None`, else 200 with the rows. -/
def get_thread_messages (db : ThreadStore) (thread_id : String) (user_id : Option String) :
    HttpMessagesResponse :=
  match load_messages_py db thread_id user_id with
  | PyRows.pynone => HttpMessagesResponse.notFound
  | PyRows.rows l => HttpMessagesResponse.ok l

/-- A one-thread store: thread `t1` owned by `alice`, with one message. -/
def sampleThreadStore : ThreadStore :=
  ⟨[⟨"t1", some "alice"⟩], [⟨1, "t1", "user", "hi"⟩]⟩

/-- C7: evaluation at the failing input.  For a requester who does not own
the thread (`bob` on `t1`) and for an absent thread (`t2`), `load_messages`
returns the empty list — never `None` — so the endpoint answers 200 with
`messages: []` instead of 404; the owner still gets the rows. -/
theorem load_messages_absent_thread_not_null :
    load_messages_py sampleThreadStore "t1" (some "bob") = PyRows.rows [] ∧
    load_messages_py sampleThreadStore "t1" (some "bob") ≠ PyRows.pynone ∧
    get_thread_messages sampleThreadStore "t1" (some "bob")
      = HttpMessagesResponse.ok [] ∧
    get_thread_messages sampleThreadStore "t2" (some "alice")
      = HttpMessagesResponse.ok [] ∧
    get_thread_messages sampleThreadStore "t1" (some "alice")
      = HttpMessagesResponse.ok [⟨1, "t1", "user", "hi"⟩] := by
  exact ⟨rfl, by decide, rfl, rfl, rfl⟩

/-- The upsert of `ensure_thread` at the list level (threads_pg.py lines
80-92): `insert into threads(id, user_id) values($1, $2) on conflict (id)
do update set updated_at = now(), user_id = coalesce(threads.user_id,
excluded.user_id)` — an absent row is inserted with the caller as owner; an
existing row keeps its owner unless it was NULL. -/
def upsertThread (l : List ThreadRow) (thread_id : String) (user_id : Option String) :
    List ThreadRow :=
  if l.any (fun t => t.id == thread_id) then
    l.map (fun t =>
      if t.id == thread_id then ⟨t.id, t.user_id.orElse (fun _ => user_id)⟩ else t)
  else
    l ++ [⟨thread_id, user_id⟩]

/-- Shallow embedding of `ensure_thread` (threads_pg.py lines 80-92). -/
def ensure_thread (db : ThreadStore) (thread_id : String) (user_id : Option String) :
    ThreadStore :=
  ⟨upsertThread db.threads thread_id user_id, db.messages⟩

/-- Shallow embedding of `get_thread_owner` (threads_pg.py lines 164-173):
`None` both when the row is absent and when its `user_id` column is NULL. -/
def get_thread_owner (db : ThreadStore) (thread_id : String) : Option String :=
  match db.threads.find? (fun t => t.id == thread_id) with
  | none => none
  | some t => t.user_id

/-- Whether the run/stream request proceeds into the graph run or ends with
the `error` SSE event. -/
inductive StreamOutcome : Type where
  | runsGraph : StreamOutcome
  | errorEvent : StreamOutcome
deriving DecidableEq

/-- The post-ACK pre-run check of `generate_stream` (server.py lines
233-254): `ensure_thread` is awaited first, then `get_thread_owner`; the
error event is emitted — and the graph is not executed — exactly when
`owner is None or owner != req_uid`. -/
def generate_stream_check (db : ThreadStore) (thread_id : String)
    (req_uid : Option String) : ThreadStore × StreamOutcome :=
  let db1 := ensure_thread db thread_id req_uid
  let owner := get_thread_owner db1 thread_id
  if owner = none ∨ owner ≠ req_uid then (db1, StreamOutcome.errorEvent)
  else (db1, StreamOutcome.runsGraph)

/-- The owner recorded for `thread_id` after the upsert, in terms of the row
found before it. -/
theorem owner_after_upsert (ms : List MessageRow) (l : List ThreadRow)
    (tid : String) (uid : Option String) :
    get_thread_owner (ensure_thread ⟨l, ms⟩ tid uid) tid
      = (match l.find? (fun t => t.id == tid) with
         | none => uid
         | some t => t.user_id.orElse (fun _ => uid)) := by
  by_cases hany : (l.any fun t => t.id == tid) = true
  · obtain ⟨t₀, ht₀⟩ : ∃ a, l.find? (fun t => t.id == tid) = some a := by
      rw [← Option.isSome_iff_exists, List.find?_isSome]
      simpa using hany
    have hid : (t₀.id == tid) = true := by
      have h := List.find?_some ht₀
      simpa using h
    have hpf : ((fun t : ThreadRow => t.id == tid) ∘ (fun t : ThreadRow =>
        if t.id == tid then (⟨t.id, t.user_id.orElse (fun _ => uid)⟩ : ThreadRow) else t))
        = fun t : ThreadRow => t.id == tid := by
      funext t
      by_cases h : (t.id == tid) = true
      · simp only [Function.comp_apply, if_pos h]
      · simp only [Function.comp_apply, if_neg h]
    have hid' : t₀.id = tid := by simpa using hid
    unfold get_thread_owner ensure_thread upsertThread
    rw [if_pos hany, List.find?_map, hpf, ht₀]
    simp [hid']
  · have hnone : l.find? (fun t => t.id == tid) = none := by
      rw [List.find?_eq_none]
      intro x hx hpx
      rw [List.any_eq_true] at hany
      exact hany ⟨x, hx, hpx⟩
    unfold get_thread_owner ensure_thread upsertThread
    rw [if_neg hany, List.find?_append, hnone]
    simp

/-- The first component of the pre-run check is always the upserted store. -/
theorem generate_stream_check_fst (db : ThreadStore) (tid : String) (uid : Option String) :
    (generate_stream_check db tid uid).1 = ensure_thread db tid uid := by
  simp only [generate_stream_check]
  split
  · rfl
  · rfl

/-- The outcome of the pre-run check, in terms of the post-upsert owner. -/
theorem generate_stream_check_snd (db : ThreadStore) (tid : String) (uid : Option String) :
    (generate_stream_check db tid uid).2
      = (if get_thread_owner (ensure_thread db tid uid) tid = none ∨
            get_thread_owner (ensure_thread db tid uid) tid ≠ uid
         then StreamOutcome.errorEvent else StreamOutcome.runsGraph) := by
  simp only [generate_stream_check]
  by_cases h : get_thread_owner (ensure_thread db tid uid) tid = none ∨
      get_thread_owner (ensure_thread db tid uid) tid ≠ uid
  · simp [h]
  · simp [h]

/-- C10 (amended): for an authenticated request (`req_uid = some u`), a
thread id absent from the store is upserted with the caller as owner and
the graph runs; a thread whose row exists with a NULL owner is adopted by
the caller and the graph runs; only a thread already owned by a different
user yields the error event without executing the graph.  (An
unauthenticated request yields the error event even on an absent thread.) -/
theorem stream_upsert_then_ownership_check (db : ThreadStore) (tid u : String) :
    (db.threads.find? (fun t => t.id == tid) = none →
      (generate_stream_check db tid (some u)).2 = StreamOutcome.runsGraph ∧
      get_thread_owner (generate_stream_check db tid (some u)).1 tid = some u) ∧
    (∀ t₀, db.threads.find? (fun t => t.id == tid) = some t₀ →
      (t₀.user_id = some u ∨ t₀.user_id = none →
        (generate_stream_check db tid (some u)).2 = StreamOutcome.runsGraph) ∧
      (∀ w, t₀.user_id = some w → w ≠ u →
        (generate_stream_check db tid (some u)).2 = StreamOutcome.errorEvent)) := by
  obtain ⟨l, ms⟩ := db
  have howner := owner_after_upsert ms l tid (some u)
  constructor
  · intro hnone
    rw [hnone] at howner
    have howner2 : get_thread_owner (ensure_thread ⟨l, ms⟩ tid (some u)) tid = some u :=
      howner
    constructor
    · rw [generate_stream_check_snd, howner2]
      simp
    · rw [generate_stream_check_fst, howner2]
  · intro t₀ hsome
    rw [hsome] at howner
    have howner2 : get_thread_owner (ensure_thread ⟨l, ms⟩ tid (some u)) tid
        = t₀.user_id.orElse (fun _ => some u) := howner
    constructor
    · intro hcase
      have howner3 : get_thread_owner (ensure_thread ⟨l, ms⟩ tid (some u)) tid = some u := by
        rcases hcase with h | h
        · rw [howner2, h]
          rfl
        · rw [howner2, h]
          rfl
      rw [generate_stream_check_snd, howner3]
      simp
    · intro w hw hne
      have howner3 : get_thread_owner (ensure_thread ⟨l, ms⟩ tid (some u)) tid = some w := by
        rw [howner2, hw]
        rfl
      rw [generate_stream_check_snd, howner3]
      simp [hne]

/-- Witness for C10 (amended): on an empty store, an authenticated request
for a fresh thread id runs the graph and leaves the caller as owner. -/
theorem stream_upsert_then_ownership_check_witness :
    (generate_stream_check ⟨[], []⟩ "t1" (some "u1")).2 = StreamOutcome.runsGraph ∧
    get_thread_owner (generate_stream_check ⟨[], []⟩ "t1" (some "u1")).1 "t1"
      = some "u1" :=
  (stream_upsert_then_ownership_check ⟨[], []⟩ "t1" "u1").1 rfl

/-- C10 counterexample: an unauthenticated request (`req_uid = None`, the
JWT middleware's value for a missing token) naming a thread id absent from
an empty store yields the error event — the claim's "the request succeeds
instead of being rejected" and "only a thread already owned by a different
user yields the error event" both fail, since here no thread exists at
all. -/
theorem stream_unauthenticated_new_thread_counterexample :
    (generate_stream_check ⟨[], []⟩ "t1" none).2 = StreamOutcome.errorEvent ∧
    (⟨[], []⟩ : ThreadStore).threads = [] := by
  exact ⟨rfl, rfl⟩

/-- A Python value that can appear in checkpointed state, as discriminated
by the adapter's `_to_jsonable` (src/backend/src/core/checkpointer_adapter.py
lines 109-212).  LangChain messages are modelled by role and content;
datetimes by their ISO-8601 rendering (`isoformat`); UUIDs by their string
form.  Floats, NamedTuples and dataclasses are not needed by the claims and
are omitted. -/
inductive PyVal : Type where
  | pynone : PyVal
  | pybool (b : Bool) : PyVal
  | pyint (n : Int) : PyVal
  | pystr (s : String) : PyVal
  | msg (role content : String) : PyVal
  | send (node : String) (arg : PyVal) : PyVal
  | dt (iso : String) : PyVal
  | uuidv (s : String) : PyVal
  | tuple (vs : List PyVal) : PyVal
  | list (vs : List PyVal) : PyVal
  | dict (kvs : List (String × PyVal)) : PyVal

/-- The test `isinstance(obj, BaseMessage)`. -/
def isMsg : PyVal → Bool
  | PyVal.msg _ _ => true
  | _ => false

/-- One message as rendered by `messages_to_dict`:
`{"type": <role>, "data": {...}}`. -/
def msgToDict (role content : String) : JVal :=
  JVal.obj [("type", JVal.str role), ("data", JVal.obj [("content", JVal.str content)])]

/-- The function `messages_to_dict` applied to one element of a message list. -/
def msgToJson : PyVal → JVal
  | PyVal.msg role content => msgToDict role content
  | _ => JVal.null

mutual

/-- Shallow embedding of `_to_jsonable` (checkpointer_adapter.py lines
109-212), following the source's branch order:
- a `BaseMessage` (line 112) and a list that is empty or holds only
  messages (lines 154-158; a mixed list makes `messages_to_dict` raise,
  falling through to the generic list) → `{__type__: "lc_message_list"}`;
- a `Send` (lines 130, 143) → `{__type__: "Send", node, arg}`;
- a dict (line 163) → per-value recursion;
- a generic `Sequence` (line 175) → plain JSON array.  A tuple is a
  `Sequence`, so it is caught HERE and the dedicated tuple branch at line
  180 (`{__type__: "tuple", data}`) is unreachable;
- atoms (line 183); `datetime` (line 187) and `UUID` (line 189) → tagged. -/
def toJsonable : PyVal → JVal
  | PyVal.msg role content =>
      JVal.obj [("__type__", JVal.str "lc_message_list"),
                ("data", JVal.arr [msgToDict role content])]
  | PyVal.send node arg =>
      JVal.obj [("__type__", JVal.str "Send"), ("node", JVal.str node),
                ("arg", toJsonable arg)]
  | PyVal.list [] =>
      JVal.obj [("__type__", JVal.str "lc_message_list"), ("data", JVal.arr [])]
  | PyVal.list (v :: vs) =>
      if isMsg v && (v :: vs).all isMsg then
        JVal.obj [("__type__", JVal.str "lc_message_list"),
                  ("data", JVal.arr ((v :: vs).map msgToJson))]
      else JVal.arr (toJsonableList (v :: vs))
  | PyVal.dict kvs => JVal.obj (toJsonableObj kvs)
  | PyVal.tuple vs => JVal.arr (toJsonableList vs)
  | PyVal.pystr s => JVal.str s
  | PyVal.pyint n => JVal.int n
  | PyVal.pybool b => JVal.bool b
  | PyVal.pynone => JVal.null
  | PyVal.dt iso => JVal.obj [("__type__", JVal.str "datetime"), ("data", JVal.str iso)]
  | PyVal.uuidv s => JVal.obj [("__type__", JVal.str "uuid"), ("data", JVal.str s)]
termination_by v => sizeOf v

/-- The element-wise serialization of a list (`[self._to_jsonable(v) for v
in obj]`, checkpointer_adapter.py lines 161, 176). -/
def toJsonableList : List PyVal → List JVal
  | [] => []
  | v :: vs => toJsonable v :: toJsonableList vs
termination_by vs => sizeOf vs

/-- The value-wise serialization of a dict (`{k: self._to_jsonable(v) ...}`,
checkpointer_adapter.py line 164). -/
def toJsonableObj : List (String × PyVal) → List (String × JVal)
  | [] => []
  | (k, v) :: kvs => (k, toJsonable v) :: toJsonableObj kvs
termination_by kvs => sizeOf kvs

end

/-- Python `obj.get(k)` on a JSON dict. -/
def jGet (entries : List (String × JVal)) (k : String) : Option JVal :=
  (entries.find? (fun kv => kv.1 == k)).map Prod.snd

/-- Python `obj.get(k)` with the `None` default represented as `JVal.null`. -/
def jGetD (entries : List (String × JVal)) (k : String) : JVal :=
  match jGet entries k with
  | some v => v
  | none => JVal.null

/-- The list iterated by `tuple(self._from_jsonable(v) for v in data)` with
`data = obj.get("data") or []` (checkpointer_adapter.py lines 235-237); a
non-list truthy `data` would raise in the source and does not occur. -/
def jArrItems : JVal → List JVal
  | JVal.arr items => items
  | _ => []

theorem jGet_mem {entries : List (String × JVal)} {k : String} {v : JVal}
    (h : jGet entries k = some v) : ∃ key, (key, v) ∈ entries := by
  unfold jGet at h
  cases hf : entries.find? (fun kv => kv.1 == k) with
  | none =>
    rw [hf] at h
    cases h
  | some kv =>
    rw [hf] at h
    simp only [Option.map_some'] at h
    have hmem := List.mem_of_find?_eq_some hf
    have h2 : kv.2 = v := by injection h
    subst h2
    exact ⟨kv.1, by simpa using hmem⟩

theorem sizeOf_lt_of_jGet {entries : List (String × JVal)} {k : String} {v : JVal}
    (h : jGet entries k = some v) : sizeOf v < sizeOf entries := by
  obtain ⟨key, hmem⟩ := jGet_mem h
  have h1 := List.sizeOf_lt_of_mem hmem
  simp only [Prod.mk.sizeOf_spec] at h1
  omega

theorem sizeOf_jGetD_lt (entries : List (String × JVal)) (k : String) :
    sizeOf (jGetD entries k) < 1 + sizeOf entries := by
  have hpos : 1 ≤ sizeOf entries := by
    cases entries with
    | nil => simp
    | cons e es =>
      simp only [List.cons.sizeOf_spec]
      omega
  cases h : jGet entries k with
  | none =>
    have hv : jGetD entries k = JVal.null := by
      unfold jGetD
      rw [h]
    rw [hv]
    simp only [JVal.null.sizeOf_spec]
    omega
  | some v =>
    have hv : jGetD entries k = v := by
      unfold jGetD
      rw [h]
    rw [hv]
    have := sizeOf_lt_of_jGet h
    omega

theorem sizeOf_jArrItems_le (v : JVal) : sizeOf (jArrItems v) ≤ sizeOf v := by
  cases v <;> simp [jArrItems]

/-- One step of `messages_from_dict`: parse `{"type", "data"}` back into a
message; any other shape raises. -/
def msgFromDict : JVal → Option PyVal
  | JVal.obj [("type", JVal.str role), ("data", JVal.obj [("content", JVal.str content)])] =>
      some (PyVal.msg role content)
  | _ => none

/-- The decoding `messages_from_dict` over a list: all-or-nothing, an exception on any
element is caught by the adapter (checkpointer_adapter.py lines 218-221)
which then returns `[]`. -/
def msgsFromDictAux : List JVal → Option (List PyVal)
  | [] => some []
  | j :: rest =>
    match msgFromDict j, msgsFromDictAux rest with
    | some m, some ms => some (m :: ms)
    | _, _ => none

/-- The `lc_message_list` data decoding with its exception fallback to `[]`
(checkpointer_adapter.py lines 217-221). -/
def msgsFromDict (items : List JVal) : List PyVal :=
  match msgsFromDictAux items with
  | some msgs => msgs
  | none => []

mutual

/-- Shallow embedding of `_from_jsonable` (checkpointer_adapter.py lines
214-256): a dict carrying `__type__` is decoded by its tag
(`lc_message_list`, `Send`, `tuple`, `datetime`, `uuid`); an unknown or
non-string tag decodes to `from_jsonable(obj.get("data"))`; a plain dict
and a list recurse element-wise; atoms pass through.  `fromisoformat` /
`UUID` failures return `str(data)`, modelled for non-string `data` only. -/
def fromJsonable : JVal → PyVal
  | JVal.obj entries =>
    match jGet entries "__type__" with
    | none => PyVal.dict (fromJsonableObj entries)
    | some (JVal.str t) =>
      if t = "lc_message_list" then
        match jGet entries "data" with
        | some (JVal.arr items) => PyVal.list (msgsFromDict items)
        | _ => PyVal.list []
      else if t = "Send" then
        match jGet entries "node" with
        | some (JVal.str n) => PyVal.send n (fromJsonable (jGetD entries "arg"))
        | _ => PyVal.pynone
      else if t = "tuple" then
        PyVal.tuple (fromJsonableList (jArrItems (jGetD entries "data")))
      else if t = "datetime" then
        match jGet entries "data" with
        | some (JVal.str s) => PyVal.dt s
        | _ => PyVal.pystr ""
      else if t = "uuid" then
        match jGet entries "data" with
        | some (JVal.str s) => PyVal.uuidv s
        | _ => PyVal.pystr ""
      else
        fromJsonable (jGetD entries "data")
    | some _ =>
      fromJsonable (jGetD entries "data")
  | JVal.arr items => PyVal.list (fromJsonableList items)
  | JVal.null => PyVal.pynone
  | JVal.bool b => PyVal.pybool b
  | JVal.int n => PyVal.pyint n
  | JVal.str s => PyVal.pystr s
termination_by j => sizeOf j
decreasing_by
  all_goals simp_wf
  all_goals first
    | omega
    | (have h1 := sizeOf_jGetD_lt entries "arg"
       omega)
    | (have h1 := sizeOf_jGetD_lt entries "data"
       have h2 := sizeOf_jArrItems_le (jGetD entries "data")
       omega)

/-- Element-wise deserialization of a JSON array
(checkpointer_adapter.py line 255). -/
def fromJsonableList : List JVal → List PyVal
  | [] => []
  | j :: js => fromJsonable j :: fromJsonableList js
termination_by js => sizeOf js

/-- Value-wise deserialization of a plain JSON dict
(checkpointer_adapter.py line 253). -/
def fromJsonableObj : List (String × JVal) → List (String × PyVal)
  | [] => []
  | (k, v) :: kvs => (k, fromJsonable v) :: fromJsonableObj kvs
termination_by kvs => sizeOf kvs

end

/-- C4: evaluation at the failing input.  A tuple is serialized by the
generic `Sequence` branch (checkpointer_adapter.py line 175), which runs
before the dedicated tuple branch (line 180), so it becomes a plain JSON
array with no `{__type__: "tuple"}` tag, and the round trip returns a
Python list — not a tuple.  The same theorem evaluates the behaviours that
do hold: an unknown `__type__` tag deserializes to its `data` field, and a
`Send` marker and a datetime round-trip. -/
theorem tuple_serialization_not_tagged :
    toJsonable (PyVal.tuple [PyVal.pyint 1, PyVal.pyint 2])
      = JVal.arr [JVal.int 1, JVal.int 2] ∧
    fromJsonable (toJsonable (PyVal.tuple [PyVal.pyint 1, PyVal.pyint 2]))
      = PyVal.list [PyVal.pyint 1, PyVal.pyint 2] ∧
    fromJsonable (toJsonable (PyVal.tuple [PyVal.pyint 1, PyVal.pyint 2]))
      ≠ PyVal.tuple [PyVal.pyint 1, PyVal.pyint 2] ∧
    fromJsonable (JVal.obj [("__type__", JVal.str "mystery"), ("data", JVal.int 7)])
      = PyVal.pyint 7 ∧
    fromJsonable (toJsonable (PyVal.send "SQL_Subgraph" (PyVal.pystr "x")))
      = PyVal.send "SQL_Subgraph" (PyVal.pystr "x") ∧
    fromJsonable (toJsonable (PyVal.dt "2024-01-01T00:00:00"))
      = PyVal.dt "2024-01-01T00:00:00" := by
  refine ⟨?_, ?_, ?_, ?_, ?_, ?_⟩
  · simp [toJsonable, toJsonableList]
  · simp [toJsonable, toJsonableList, fromJsonable, fromJsonableList, jGet]
  · intro h
    rw [show fromJsonable (toJsonable (PyVal.tuple [PyVal.pyint 1, PyVal.pyint 2]))
        = PyVal.list [PyVal.pyint 1, PyVal.pyint 2] from by
      simp [toJsonable, toJsonableList, fromJsonable, fromJsonableList, jGet]] at h
    exact PyVal.noConfusion h
  · simp [fromJsonable, jGet, jGetD]
  · simp [toJsonable, fromJsonable, jGet, jGetD]
  · simp [toJsonable, fromJsonable, jGet]

/-- Python `config.get(k)` on a dict value. -/
def pyDictGet (kvs : List (String × PyVal)) (k : String) : Option PyVal :=
  (kvs.find? (fun kv => kv.1 == k)).map Prod.snd

/-- Python truthiness for the `if thread_id:` test
(auto_reconnect_checkpointer.py line 116). -/
def pyTruthy : PyVal → Bool
  | PyVal.pynone => false
  | PyVal.pybool b => b
  | PyVal.pyint n => n != 0
  | PyVal.pystr s => !s.isEmpty
  | PyVal.list vs => !vs.isEmpty
  | PyVal.tuple vs => !vs.isEmpty
  | PyVal.dict kvs => !kvs.isEmpty
  | _ => true

/-- Python `str(thread_id)` (auto_reconnect_checkpointer.py line 117), modelled for
the scalar values a `thread_id` can hold. -/
def pyToStr : PyVal → String
  | PyVal.pystr s => s
  | PyVal.pyint n => toString n
  | PyVal.pybool b => if b then "True" else "False"
  | _ => ""

/-- Shallow embedding of `AutoReconnectCheckpointer._extract_thread_id`
(auto_reconnect_checkpointer.py lines 92-120), the function that picks the
per-thread write-lock key for `aput` / `aput_writes`:
`config = args[2] if len(args) >= 3 else (args[3] if len(args) >= 4 else
None)` — note the `elif len(args) >= 4` branch is dead, since any call with
4 positional arguments also has 3 — then `config = kwargs.get("config")`
when still `None`, then `config["configurable"]["thread_id"]` when `config`
is a dict, `"default"` otherwise.  (A non-dict `configurable` value would
raise in the source; it cannot occur in checkpointer configs and is mapped
to `"default"` here.) -/
def extract_thread_id (args : List PyVal) (kwargs_config : Option PyVal) : String :=
  let config : Option PyVal :=
    if args.length ≥ 3 then args[2]?
    else if args.length ≥ 4 then args[3]?
    else none
  let config : Option PyVal :=
    match config with
    | none => kwargs_config
    | some c => some c
  match config with
  | some (PyVal.dict kvs) =>
    match pyDictGet kvs "configurable" with
    | some (PyVal.dict conf) =>
      match pyDictGet conf "thread_id" with
      | some tid => if pyTruthy tid then pyToStr tid else "default"
      | none => "default"
    | _ => "default"
  | _ => "default"

/-- A checkpointer config carrying `configurable.thread_id = "t1"`. -/
def sampleConfig : PyVal :=
  PyVal.dict [("configurable", PyVal.dict [("thread_id", PyVal.pystr "t1")])]

/-- C9: evaluation at the failing input.  The adapter layer invokes the
inner checkpointer positionally — `aput(config, checkpoint, metadata,
new_versions)` (checkpointer_adapter.py line 454) and `aput_writes(config,
writes, task_id, task_path)` (line 491) — so `_extract_thread_id` reads
`args[2]` (the metadata dict, resp. the task-id string), never the config
in `args[0]`, and the write-lock key is the shared `"default"` for every
such call: writes to distinct threads contend on one lock, and the key
never equals the config's `thread_id`.  Passing `config` as a keyword (no
positional args) would have produced `"t1"`. -/
theorem extract_thread_id_ignores_positional_config :
    extract_thread_id
        [sampleConfig,
         PyVal.dict [("channel_values", PyVal.dict [])],
         PyVal.dict [("source", PyVal.pystr "loop"), ("step", PyVal.pyint 1)],
         PyVal.dict []] none
      = "default" ∧
    extract_thread_id
        [sampleConfig,
         PyVal.list [PyVal.tuple [PyVal.pystr "merged", PyVal.list []]],
         PyVal.pystr "task-1",
         PyVal.pystr ""] none
      = "default" ∧
    extract_thread_id [] (some sampleConfig) = "t1" ∧
    ("default" : String) ≠ "t1" := by
  refine ⟨rfl, rfl, rfl, by decide⟩

end SmartAgent
